import Mathlib

/-!
QuoteDriftTracker — shallow embedding and verification.

A shallow embedding of the core of the QuoteDriftTracker repository
(`models.py`, `utils.py`, `data_analyzer.py`, `quote_tracker.py`,
`config.py`, `web_app.py`) into Lean 4, together with theorems settling
the specification claims about it.

Numeric conventions: Python `float` values are modelled by `ℚ` (all the
arithmetic the claims touch is exact field arithmetic on rational inputs),
Python `int` by `ℤ`.  `numpy` population mean and variance are modelled
directly; the population standard deviation is `Real.sqrt` of the modelled
variance, and everywhere a standard deviation is *compared* or used as a
divisor the development carries the variance instead and relates the two
through an explicit bridge lemma over `ℝ` (`zscore_sqrt_bridge` below).
-/

namespace QuoteDrift

/-- `models.QuoteData`: one recorded quote sample.
`route_plan` (an opaque list of dicts never read by any computation the
claims concern) is omitted. -/
structure QuoteData where
  timestamp : ℚ
  request_time : ℚ
  response_time : ℚ
  latency : ℚ
  output_amount : ℤ
  price_impact_pct : ℚ
  success : Bool
  error : Option String := none
  deriving Repr, DecidableEq

/-- A throwaway sample used as the default value of `List.getD`; every
theorem that uses `getD` supplies an index bound, so this value is never
actually selected. -/
def dummyQuote : QuoteData :=
  { timestamp := 0, request_time := 0, response_time := 0, latency := 0,
    output_amount := 0, price_impact_pct := 0, success := false }

/-- `utils.calculate_drift`: percentage drift between two amounts;
returns `0.0` when the previous amount is `0`. -/
def calculate_drift (previous_amount current_amount : ℤ) : ℚ :=
  if previous_amount = 0 then 0
  else ((current_amount : ℚ) - (previous_amount : ℚ)) / (previous_amount : ℚ) * 100

/-- `np.mean` on a list of rationals (population mean). -/
def npMean (xs : List ℚ) : ℚ := xs.sum / xs.length

/-- `np.var` on a list of rationals (population variance).
`np.std` is the (irrational, in general) square root of this value. -/
def npVar (xs : List ℚ) : ℚ := ((xs.map fun x => (x - npMean xs) ^ 2).sum) / xs.length

/-- The successful subsequence `[q for q in quotes if q.success]`. -/
def successful (quotes : List QuoteData) : List QuoteData := quotes.filter (·.success)

/-- The drift series of `data_analyzer.DataAnalyzer.analyze_quotes`
(lines 31–36): one `calculate_drift` value per consecutive pair of the
given (already success-filtered) list, in order. -/
def driftSeriesOf (succ : List QuoteData) : List ℚ :=
  List.zipWith (fun p c => calculate_drift p.output_amount c.output_amount) succ succ.tail

/-- The DriftSeries derived from a raw sample log: drifts of consecutive
pairs of the successful subsequence in log order. -/
def analyzeDrifts (quotes : List QuoteData) : List ℚ :=
  driftSeriesOf (successful quotes)

/-- `DataAnalyzer.drift_threshold` (0.01). -/
def drift_threshold : ℚ := 1 / 100

/-- `DataAnalyzer.latency_advantage_threshold` (0.05, i.e. 50 ms). -/
def latency_advantage_threshold : ℚ := 1 / 20

/-- The per-pair front-running condition of
`DataAnalyzer.analyze_frontrun_opportunities` (lines 99–107) and of
`QuoteTracker.front_running_simulator` (lines 227–234), which use the same
thresholds (0.05 s timing advantage, 0.01 % drift). -/
def frontrunCond (previous current : QuoteData) : Prop :=
  previous.latency - current.latency > latency_advantage_threshold ∧
    |calculate_drift previous.output_amount current.output_amount| > drift_threshold

instance (p c : QuoteData) : Decidable (frontrunCond p c) := by
  unfold frontrunCond; infer_instance

/-- The Opportunity events emitted by `QuoteTracker.front_running_simulator`
for a window of successful quotes: for each consecutive pair satisfying
`frontrunCond`, the pair `(timing_advantage, price_drift)` it reports. -/
def front_running_events (quotes : List QuoteData) : List (ℚ × ℚ) :=
  (List.zip quotes quotes.tail).filterMap fun pc =>
    if frontrunCond pc.1 pc.2 then
      some (pc.1.latency - pc.2.latency,
            calculate_drift pc.1.output_amount pc.2.output_amount)
    else none

/-- `DataAnalyzer.analyze_frontrun_opportunities` (lines 91–110): the number
of consecutive pairs of the given quotes satisfying `frontrunCond`. -/
def analyze_frontrun_opportunities (quotes : List QuoteData) : ℕ :=
  ((List.zip quotes quotes.tail).filter fun pc => decide (frontrunCond pc.1 pc.2)).length

/-- The `latencies` series built by
`DataAnalyzer.calculate_latency_price_correlation` (line 124): the latency of
the *current* quote of each consecutive pair. -/
def pairLatencies (quotes : List QuoteData) : List ℚ :=
  (List.zip quotes quotes.tail).map fun pc => pc.2.latency

/-- The `price_changes` series built by
`DataAnalyzer.calculate_latency_price_correlation` (lines 125–126): the
absolute drift of each consecutive pair. -/
def pairAbsDrifts (quotes : List QuoteData) : List ℚ :=
  (List.zip quotes quotes.tail).map fun pc =>
    |calculate_drift pc.1.output_amount pc.2.output_amount|

/-- The population covariance of two equal-length series. -/
def npCov (xs ys : List ℚ) : ℚ :=
  npMean (List.zipWith (fun x y => (x - npMean xs) * (y - npMean ys)) xs ys)

/-- `np.corrcoef(xs, ys)[0, 1]`, the Pearson correlation
`r = cov / (σx · σy)`, modelled in `ℚ` by its sign-preserving square
`r · |r| = cov · |cov| / (varx · vary)` (which avoids the irrational square
roots; `r = 0 ↔ r · |r| = 0`, and `r` and `r · |r|` share their sign).
`numpy` yields `NaN` exactly when one of the two series has zero variance
(then `cov = 0` as well, giving `0/0`); that case is modelled as `none`.
The bridge `corr_zero_iff_model_zero` below relates the model to the real
quotient. -/
def corrcoef (xs ys : List ℚ) : Option ℚ :=
  if npVar xs = 0 ∨ npVar ys = 0 then none
  else some (npCov xs ys * |npCov xs ys| / (npVar xs * npVar ys))

/-- `DataAnalyzer.calculate_latency_price_correlation` (lines 112–132):
`0.0` for fewer than 3 quotes, `0.0` when the correlation is `NaN`
(zero variance), otherwise the (modelled) Pearson correlation between each
pair's current latency and absolute drift. -/
def calculate_latency_price_correlation (quotes : List QuoteData) : ℚ :=
  if quotes.length < 3 then 0
  else if (pairLatencies quotes).length < 2 then 0
  else
    match corrcoef (pairLatencies quotes) (pairAbsDrifts quotes) with
    | none => 0
    | some r => r

/-- One anomaly record of `DataAnalyzer.detect_price_anomalies`
(lines 197–203).  The source stores `z_score = |x − μ| / σ` with
`σ = √(variance)`; `zScoreSq` carries its square `(x − μ)² / variance`,
which determines it (`z_score = √zScoreSq`); see `zscore_sqrt_bridge`. -/
structure Anomaly where
  timestamp : ℚ
  output_amount : ℤ
  zScoreSq : ℚ
  deviation_pct : ℚ
  latency_ms : ℚ
  deriving Repr, DecidableEq

/-- The z-score test of `detect_price_anomalies` line 194/196, carried in
`ℚ` as a comparison of squares (see `zscore_sqrt_bridge`). -/
def anomalyFlag (mean_amount var_amount z_threshold : ℚ) (q : QuoteData) : Bool :=
  decide (((q.output_amount : ℚ) - mean_amount) ^ 2 / var_amount > z_threshold ^ 2)

/-- `DataAnalyzer.detect_price_anomalies` (lines 181–205): empty list for
fewer than 10 successful samples; otherwise flags each successful sample
whose z-score `|x − μ| / σ` exceeds `z_threshold` (`σ` the population
standard deviation of all successful output amounts).  The division by `σ`
is *unguarded* in the source; `σ = 0` (zero variance) is modelled as
`none` (the reachable zero-denominator branch).  The comparison
`|x − μ| / σ > τ` is carried in `ℚ` as `(x − μ)² / var > τ²`, equivalent
for `σ > 0`, `τ ≥ 0` by `zscore_sqrt_bridge`. -/
def detect_price_anomalies (quotes : List QuoteData) (z_threshold : ℚ) :
    Option (List Anomaly) :=
  if (successful quotes).length < 10 then some []
  else if npVar ((successful quotes).map fun q => (q.output_amount : ℚ)) = 0 then none
  else
    let succ := successful quotes
    let amounts : List ℚ := succ.map fun q => (q.output_amount : ℚ)
    let mean_amount : ℚ := npMean amounts
    let var_amount : ℚ := npVar amounts
    some ((succ.filter (anomalyFlag mean_amount var_amount z_threshold)).map
      fun q =>
        { timestamp := q.timestamp
          output_amount := q.output_amount
          zScoreSq := ((q.output_amount : ℚ) - mean_amount) ^ 2 / var_amount
          deviation_pct := ((q.output_amount : ℚ) - mean_amount) / mean_amount * 100
          latency_ms := q.latency * 1000 })

/-- `np.min` on a (nonempty) list of rationals. -/
def npMin (xs : List ℚ) : ℚ := xs.foldl min (xs.headD 0)

/-- `np.max` on a (nonempty) list of rationals. -/
def npMax (xs : List ℚ) : ℚ := xs.foldl max (xs.headD 0)

/-- `DataAnalyzer.calculate_avg_interval` (lines 134–140). -/
def calculate_avg_interval (timestamps : List ℚ) : ℚ :=
  if timestamps.length < 2 then 0
  else npMean (List.zipWith (fun a b => b - a) timestamps timestamps.tail)

/-- The analysis dictionary built by `DataAnalyzer.analyze_quotes`
(lines 42–83).  Fields that are pure real-valued display summaries whose
computation involves irrational square roots or interpolation
(`latency_std_dev`, `output_amount_std_dev`, `drift_std_dev`,
`price_volatility`, and the percentile blocks of lines 85–87) are omitted:
they are total functions of the same data and cannot affect whether
`analyze_quotes` produces a result, which is the only property any claim
states about them. -/
structure AnalysisResult where
  total_quotes : ℕ
  successful_quotes : ℕ
  failed_quotes : ℕ
  success_rate : ℚ
  avg_latency : ℚ
  min_latency : ℚ
  max_latency : ℚ
  avg_output_amount : ℚ
  min_output_amount : ℚ
  max_output_amount : ℚ
  avg_drift : ℚ
  min_drift : ℚ
  max_drift : ℚ
  drift_variance : ℚ
  price_variance : ℚ
  frontrun_opportunities : ℕ
  latency_price_correlation : ℚ
  duration : ℚ
  avg_request_interval : ℚ
  positive_drifts : ℕ
  negative_drifts : ℕ
  significant_drifts : ℕ
  deriving Repr, DecidableEq

/-- `DataAnalyzer.analyze_quotes` (lines 17–89): `none` for an empty input,
`none` when fewer than 2 successful quotes exist, `none` when the drift
list is empty (line 38), otherwise the analysis record. -/
def analyze_quotes (quotes : List QuoteData) : Option AnalysisResult :=
  if quotes = [] then none
  else if (successful quotes).length < 2 then none
  else if driftSeriesOf (successful quotes) = [] then none
  else
    let succ := successful quotes
    let output_amounts : List ℚ := succ.map fun q => (q.output_amount : ℚ)
    let latencies : List ℚ := succ.map (·.latency)
    let timestamps : List ℚ := succ.map (·.timestamp)
    let drifts : List ℚ := driftSeriesOf succ
    some
          { total_quotes := quotes.length
            successful_quotes := succ.length
            failed_quotes := quotes.length - succ.length
            success_rate := (succ.length : ℚ) / (quotes.length : ℚ) * 100
            avg_latency := npMean latencies
            min_latency := npMin latencies
            max_latency := npMax latencies
            avg_output_amount := npMean output_amounts
            min_output_amount := npMin output_amounts
            max_output_amount := npMax output_amounts
            avg_drift := npMean drifts
            min_drift := npMin drifts
            max_drift := npMax drifts
            drift_variance := npVar drifts
            price_variance := npVar output_amounts
            frontrun_opportunities := analyze_frontrun_opportunities succ
            latency_price_correlation := calculate_latency_price_correlation succ
            duration := timestamps.getLastD 0 - timestamps.headD 0
            avg_request_interval := calculate_avg_interval timestamps
            positive_drifts := (drifts.filter fun d => decide (d > 0)).length
            negative_drifts := (drifts.filter fun d => decide (d < 0)).length
            significant_drifts := (drifts.filter fun d => decide (|d| > drift_threshold)).length }

/-- `config.Config`: the numeric configuration fields validated by
`Config.__post_init__` plus the ones the worker-interval computation reads
(the string-valued fields play no part in any claim). -/
structure Config where
  amount : ℤ
  frequency : ℚ
  duration : ℤ
  concurrent_requests : ℤ
  slippage_bps : ℤ
  latency_injection : ℚ
  deriving Repr, DecidableEq

/-- `Config.__post_init__` (lines 35–53): the validation run at
construction; the first failing check raises `ValueError` with the given
message (modelled as `Except.error`), and construction succeeds iff no
check fails. -/
def post_init_validate (c : Config) : Except String Unit :=
  if c.frequency ≤ 0 then .error "Frequency must be greater than 0"
  else if c.duration ≤ 0 then .error "Duration must be greater than 0"
  else if c.concurrent_requests ≤ 0 then .error "Concurrent requests must be greater than 0"
  else if c.amount ≤ 0 then .error "Amount must be greater than 0"
  else if c.slippage_bps < 0 then .error "Slippage BPS cannot be negative"
  else if c.latency_injection < 0 then .error "Latency injection cannot be negative"
  else .ok ()

/-- `Config.requests_per_worker` (lines 55–58). -/
def requests_per_worker (c : Config) : ℚ :=
  c.frequency / (c.concurrent_requests : ℚ)

/-- `Config.worker_interval` (lines 65–68). -/
def worker_interval (c : Config) : ℚ :=
  1 / requests_per_worker c

/-- The interval computed inline by `QuoteTracker.quote_worker` (line 138),
and identically by `web_app.demo_worker_wrapper` (line 177) and
`web_app.live_worker_wrapper` (line 233):
`1.0 / (config.frequency / config.concurrent_requests)`. -/
def quote_worker_interval (c : Config) : ℚ :=
  1 / (c.frequency / (c.concurrent_requests : ℚ))

/-- Python `round(x, n)` on our rational model of floats: round
`x · 10ⁿ` to an integer and scale back.  (Python rounds exact ties to
even while Mathlib's `round` rounds them up; the two differ *only* on
exact ties, and no claim's value sits on a tie — in particular
`x · 10ⁿ ∈ ℤ` is returned exactly by both.) -/
def pyRound (x : ℚ) (n : ℕ) : ℚ :=
  ((round (x * 10 ^ n) : ℤ) : ℚ) / 10 ^ n

/-- One CSV record written by `QuoteTracker.export_to_csv` (lines 342–351).
The `datetime` column (a pure string rendering of `timestamp`) is
omitted. -/
structure CsvRow where
  timestamp : ℚ
  latency_ms : ℚ
  output_amount : ℤ
  price_usdc : ℚ
  price_impact_pct : ℚ
  drift_pct : ℚ
  is_mev_opportunity : Bool
  deriving Repr, DecidableEq

/-- The body of the export loop of `QuoteTracker.export_to_csv`
(lines 335–351) for one successful quote, given the running
`previous_amount` (`none` before the first row).  `if previous_amount:`
is Python truthiness: false for `None` *and* for `0`.
`is_mev_opportunity` is computed from the *unrounded* `drift_pct`
variable (line 340), while the exported `drift_pct` column is rounded to
4 decimals (line 349). -/
def csvRow (previous_amount : Option ℤ) (q : QuoteData) : CsvRow :=
  let drift_pct : ℚ :=
    match previous_amount with
    | some p => if p = 0 then 0 else calculate_drift p q.output_amount
    | none => 0
  { timestamp := q.timestamp
    latency_ms := pyRound (q.latency * 1000) 2
    output_amount := q.output_amount
    price_usdc := pyRound ((q.output_amount : ℚ) / 1000000) 6
    price_impact_pct := pyRound q.price_impact_pct 4
    drift_pct := pyRound drift_pct 4
    is_mev_opportunity := decide (|drift_pct| > (1 : ℚ) / 100) }

/-- The export loop of `QuoteTracker.export_to_csv` threading
`previous_amount` (set to each quote's `output_amount` after its row). -/
def exportRowsAux : Option ℤ → List QuoteData → List CsvRow
  | _, [] => []
  | prev, q :: rest => csvRow prev q :: exportRowsAux (some q.output_amount) rest

/-- `QuoteTracker.export_to_csv` (lines 310–355): one record per
successful quote, in order (no records at all when no quote succeeded). -/
def export_to_csv (quotes : List QuoteData) : List CsvRow :=
  exportRowsAux none (successful quotes)

/-- One worker-iteration append to the shared `latest_quotes` log, as
performed by `web_app.demo_worker_wrapper` (lines 182–187) and
`web_app.live_worker_wrapper` (lines 238–243): append the new quote, then
`if len(latest_quotes) > 1000: latest_quotes = latest_quotes[-500:]`. -/
def append_quote (log : List QuoteData) (q : QuoteData) : List QuoteData :=
  let l := log ++ [q]
  if l.length > 1000 then l.drop (l.length - 500) else l

/-! ### Concrete inputs used by witnesses and counterexamples -/

/-- A successful sample with the given latency and output amount (the
other fields are irrelevant to every computation below). -/
def sampleQuote (lat : ℚ) (amount : ℤ) : QuoteData :=
  { timestamp := 0, request_time := 0, response_time := 0, latency := lat,
    output_amount := amount, price_impact_pct := 0, success := true }

/-- A throwaway CSV row used as the default value of `List.getD`. -/
def dummyRow : CsvRow :=
  { timestamp := 0, latency_ms := 0, output_amount := 0, price_usdc := 0,
    price_impact_pct := 0, drift_pct := 0, is_mev_opportunity := false }

/-- Three successful samples (two consecutive pairs): latencies of the
second and third are `1` and `2`, amounts `100, 200, 100`. -/
def corrCexQuotes : List QuoteData :=
  [sampleQuote 0 100, sampleQuote 1 200, sampleQuote 2 100]

/-- Three successful samples all with latency `5` (zero latency
variance). -/
def corrFlatQuotes : List QuoteData :=
  [sampleQuote 5 1, sampleQuote 5 2, sampleQuote 5 3]

/-- Two successful samples whose first amount is `0`. -/
def driftCexQuotes : List QuoteData :=
  [sampleQuote 0 0, sampleQuote 0 5]

/-- Two successful samples with amounts `4` and `6`. -/
def driftWitnessQuotes : List QuoteData :=
  [sampleQuote 0 4, sampleQuote 0 6]

/-- The consecutive pair of the specification's opportunity scenario. -/
def frontrunPrev : QuoteData := sampleQuote (3 / 10) 1000000

/-- Second half of the specification's opportunity scenario. -/
def frontrunCur : QuoteData := sampleQuote (1 / 10) 990000

/-- The synthetic anomaly data set: twenty successful samples of amount
`100` followed by one of amount `1000`. -/
def anomalyInput : List QuoteData :=
  List.replicate 20 (sampleQuote 0 100) ++ [sampleQuote 0 1000]

/-- Ten successful samples with identical amounts (zero variance). -/
def flatAmountInput : List QuoteData :=
  List.replicate 10 (sampleQuote 0 100)

/-- Two successful samples for the CSV-export witness. -/
def exportWitnessQuotes : List QuoteData :=
  [sampleQuote 0 1000000, sampleQuote 0 990000]

/-- A configuration valid except for `duration = 0` (which the claim's
condition list does not cover). -/
def cfgDurationZero : Config :=
  { amount := 1000000, frequency := 5, duration := 0, concurrent_requests := 10,
    slippage_bps := 50, latency_injection := 0 }

/-- The default configuration of `config.Config` (frequency 5 req/s, 10
workers). -/
def defaultConfig : Config :=
  { amount := 1000000, frequency := 5, duration := 60, concurrent_requests := 10,
    slippage_bps := 50, latency_injection := 0 }

/-! ## Helper lemmas -/

/-- The bridge justifying the squared-comparison model of the z-score
test: for a positive variance `v` and nonnegative threshold `τ`, the
source's comparison `|x − μ| / √v > τ` is equivalent to the rational
comparison `(x − μ)² / v > τ²` used by `anomalyFlag`. -/
theorem zscore_sqrt_bridge (x μ v τ : ℝ) (hv : 0 < v) (hτ : 0 ≤ τ) :
    |x - μ| / Real.sqrt v > τ ↔ (x - μ) ^ 2 / v > τ ^ 2 := by
  have hsv : 0 < Real.sqrt v := Real.sqrt_pos.mpr hv
  rw [gt_iff_lt, gt_iff_lt, lt_div_iff hsv, lt_div_iff hv]
  constructor
  · intro h
    have h2 : (τ * Real.sqrt v) ^ 2 < |x - μ| ^ 2 :=
      pow_lt_pow_left h (by positivity) two_ne_zero
    rwa [mul_pow, Real.sq_sqrt hv.le, sq_abs] at h2
  · intro h
    have h2 : (τ * Real.sqrt v) ^ 2 < |x - μ| ^ 2 := by
      rwa [mul_pow, Real.sq_sqrt hv.le, sq_abs]
    exact lt_of_pow_lt_pow_left 2 (abs_nonneg _) h2

/-- The bridge justifying the sign-preserving-square model of the Pearson
correlation: for positive variances, the real correlation
`cov / (√vx · √vy)` is zero exactly when the modelled value
`cov · |cov| / (vx · vy)` is. -/
theorem corr_zero_iff_model_zero (cov vx vy : ℝ) (hx : 0 < vx) (hy : 0 < vy) :
    cov / (Real.sqrt vx * Real.sqrt vy) = 0 ↔ cov * |cov| / (vx * vy) = 0 := by
  have hsx : Real.sqrt vx ≠ 0 := ne_of_gt (Real.sqrt_pos.mpr hx)
  have hsy : Real.sqrt vy ≠ 0 := ne_of_gt (Real.sqrt_pos.mpr hy)
  rw [div_eq_zero_iff, div_eq_zero_iff]
  constructor
  · rintro (h | h)
    · left; simp [h]
    · exact absurd h (mul_ne_zero hsx hsy)
  · rintro (h | h)
    · rcases mul_eq_zero.mp h with h1 | h1
      · exact Or.inl h1
      · exact Or.inl (abs_eq_zero.mp h1)
    · exact absurd h (mul_ne_zero (ne_of_gt hx) (ne_of_gt hy))

lemma npMean_of_all_eq (xs : List ℚ) (a : ℚ) (hne : xs ≠ [])
    (hall : ∀ x ∈ xs, x = a) : npMean xs = a := by
  have hrep : xs = List.replicate xs.length a :=
    (List.eq_replicate_length).mpr hall
  have hlen : (xs.length : ℚ) ≠ 0 := by
    have h := List.length_pos.mpr hne
    exact_mod_cast Nat.pos_iff_ne_zero.mp h
  calc npMean xs = xs.sum / xs.length := rfl
    _ = (xs.length : ℚ) * a / xs.length := by
        rw [hrep]; simp [List.sum_replicate, nsmul_eq_mul]
    _ = a := by field_simp

lemma npVar_of_all_eq (xs : List ℚ) (a : ℚ) (hne : xs ≠ [])
    (hall : ∀ x ∈ xs, x = a) : npVar xs = 0 := by
  have hmean : npMean xs = a := npMean_of_all_eq xs a hne hall
  have hz : (xs.map fun x => (x - npMean xs) ^ 2).sum = 0 := by
    apply List.sum_eq_zero
    intro y hy
    rcases List.mem_map.mp hy with ⟨x, hx, rfl⟩
    rw [hall x hx, hmean, sub_self]
    ring
  rw [npVar, hz, zero_div]

lemma driftSeriesOf_length (succ : List QuoteData) :
    (driftSeriesOf succ).length = succ.length - 1 := by
  rw [driftSeriesOf, List.length_zipWith, List.length_tail]
  exact Nat.min_eq_right (Nat.sub_le _ _)

lemma exportRowsAux_length (prev : Option ℤ) (l : List QuoteData) :
    (exportRowsAux prev l).length = l.length := by
  induction l generalizing prev with
  | nil => rfl
  | cons q rest ih => simp [exportRowsAux, ih]

/-- Rounding to 6 decimals is the identity on `z / 10⁶` for integer `z`
(the exported `price_usdc` is exact). -/
lemma pyRound_int_div_million (z : ℤ) :
    pyRound ((z : ℚ) / 1000000) 6 = (z : ℚ) / 1000000 := by
  have h : ((z : ℚ) / 1000000) * 10 ^ 6 = (z : ℚ) := by norm_num
  rw [pyRound, h, round_intCast]
  norm_num

/-- Whatever the predecessor amount, the `drift_pct` loop variable of
`export_to_csv` equals `calculate_drift previous current`: the Python
truthiness guard `if previous_amount:` and the zero guard inside
`calculate_drift` return the same `0.0` for a zero predecessor. -/
lemma csvRow_driftVal (p : ℤ) (a : ℤ) :
    (if p = 0 then (0 : ℚ) else calculate_drift p a) = calculate_drift p a := by
  by_cases h : p = 0 <;> simp [calculate_drift, h]

/-- Row `i + 1` of the export loop is built from quote `i + 1` with quote
`i`'s amount as its predecessor, whatever the initial accumulator. -/
lemma exportRowsAux_getD_succ (l : List QuoteData) (prev : Option ℤ) (i : ℕ)
    (h : i + 1 < l.length) :
    (exportRowsAux prev l).getD (i + 1) dummyRow =
      csvRow (some ((l.getD i dummyQuote).output_amount)) (l.getD (i + 1) dummyQuote) := by
  induction l generalizing prev i with
  | nil => simp at h
  | cons q rest ih =>
    cases i with
    | zero =>
      cases rest with
      | nil => simp at h
      | cons r rs => rfl
    | succ j =>
      have h2 : j + 1 < rest.length := by
        simpa [List.length_cons] using h
      simpa [exportRowsAux, List.getD_cons_succ] using ih (some q.output_amount) j h2

/-- Every export row's `price_usdc` is its own `output_amount / 10⁶`
(exactly — 6-decimal rounding is the identity there). -/
lemma exportRowsAux_price (l : List QuoteData) (prev : Option ℤ) :
    ∀ i < (exportRowsAux prev l).length,
      ((exportRowsAux prev l).getD i dummyRow).price_usdc =
        (((exportRowsAux prev l).getD i dummyRow).output_amount : ℚ) / 1000000 := by
  induction l generalizing prev with
  | nil => intro i h; simp [exportRowsAux] at h
  | cons q rest ih =>
    intro i h
    cases i with
    | zero =>
      show (csvRow prev q).price_usdc = ((csvRow prev q).output_amount : ℚ) / 1000000
      simp [csvRow, pyRound_int_div_million]
    | succ j =>
      have h2 : j < (exportRowsAux (some q.output_amount) rest).length := by
        simpa [exportRowsAux] using h
      simpa [exportRowsAux, List.getD_cons_succ] using ih (some q.output_amount) j h2

/-! ## Claim theorems -/

/-- C9. For every aggregate target frequency `F > 0` and worker count
`W > 0`, the fire interval computed by `Config.worker_interval` and the
interval computed inline by each worker loop both equal `W / F` seconds,
as exact arithmetic. -/
theorem C9_worker_interval (c : Config) (hF : 0 < c.frequency)
    (hW : 0 < c.concurrent_requests) :
    worker_interval c = (c.concurrent_requests : ℚ) / c.frequency ∧
      quote_worker_interval c = (c.concurrent_requests : ℚ) / c.frequency := by
  constructor <;>
    simp [worker_interval, requests_per_worker, quote_worker_interval, one_div, inv_div]

/-- Witness for C9 at the default configuration (F = 5 req/s, W = 10):
each worker fires every 10/5 = 2 seconds. -/
theorem C9_worker_interval_witness :
    0 < defaultConfig.frequency ∧ 0 < defaultConfig.concurrent_requests ∧
      worker_interval defaultConfig =
        (defaultConfig.concurrent_requests : ℚ) / defaultConfig.frequency :=
  ⟨by norm_num [defaultConfig], by norm_num [defaultConfig],
    (C9_worker_interval defaultConfig (by norm_num [defaultConfig])
      (by norm_num [defaultConfig])).1⟩

/-- C7, amended. Construction of a configuration fails exactly when
`F ≤ 0`, duration ≤ 0, `W ≤ 0`, amount ≤ 0, slippage < 0, or injected
latency < 0 — i.e. the claim's condition list extended with the
duration check that `Config.__post_init__` also performs. -/
theorem C7_config_validation (c : Config) :
    post_init_validate c = .ok () ↔
      0 < c.frequency ∧ 0 < c.duration ∧ 0 < c.concurrent_requests ∧
        0 < c.amount ∧ 0 ≤ c.slippage_bps ∧ 0 ≤ c.latency_injection := by
  unfold post_init_validate
  split_ifs with h1 h2 h3 h4 h5 h6
  · exact iff_of_false (by simp) (by rintro ⟨hf, -⟩; exact absurd hf (not_lt.mpr h1))
  · exact iff_of_false (by simp) (by rintro ⟨-, hd, -⟩; exact absurd hd (not_lt.mpr h2))
  · exact iff_of_false (by simp) (by rintro ⟨-, -, hw, -⟩; exact absurd hw (not_lt.mpr h3))
  · exact iff_of_false (by simp) (by rintro ⟨-, -, -, ha, -⟩; exact absurd ha (not_lt.mpr h4))
  · exact iff_of_false (by simp) (by rintro ⟨-, -, -, -, hs, -⟩; exact absurd hs (not_le.mpr h5))
  · exact iff_of_false (by simp) (by rintro ⟨-, -, -, -, -, hl⟩; exact absurd hl (not_le.mpr h6))
  · exact iff_of_true rfl
      ⟨not_le.mp h1, not_le.mp h2, not_le.mp h3, not_le.mp h4, not_lt.mp h5, not_lt.mp h6⟩

/-- C7 counterexample. A configuration satisfying *none* of the
claim's failure conditions (`F > 0`, `W > 0`, amount > 0, slippage ≥ 0,
injected latency ≥ 0) whose construction nevertheless fails, because
`duration = 0` — a condition the claim omits. -/
theorem C7_config_validation_counterexample :
    0 < cfgDurationZero.frequency ∧ 0 < cfgDurationZero.concurrent_requests ∧
      0 < cfgDurationZero.amount ∧ 0 ≤ cfgDurationZero.slippage_bps ∧
      0 ≤ cfgDurationZero.latency_injection ∧
      post_init_validate cfgDurationZero = .error "Duration must be greater than 0" := by
  refine ⟨by norm_num [cfgDurationZero], by norm_num [cfgDurationZero],
    by norm_num [cfgDurationZero], by norm_num [cfgDurationZero],
    by norm_num [cfgDurationZero], ?_⟩
  norm_num [post_init_validate, cfgDurationZero]

/-- C6. SampleLog retention: a worker-iteration append never leaves
the log longer than 1000; any sequence of appends starting from a
bounded log keeps it bounded; and when an append makes the log exceed
1000 entries, it is trimmed to exactly the most recent 500 (a suffix of
length 500). -/
theorem C6_retention :
    (∀ (log : List QuoteData) (q : QuoteData), (append_quote log q).length ≤ 1000) ∧
      (∀ (log qs : List QuoteData), log.length ≤ 1000 →
        (List.foldl append_quote log qs).length ≤ 1000) ∧
      (∀ (log : List QuoteData) (q : QuoteData), 1000 < (log ++ [q]).length →
        (append_quote log q).length = 500 ∧ append_quote log q <:+ log ++ [q]) := by
  have hstep : ∀ (log : List QuoteData) (q : QuoteData),
      (append_quote log q).length ≤ 1000 := by
    intro log q
    show (if (log ++ [q]).length > 1000 then
        (log ++ [q]).drop ((log ++ [q]).length - 500) else log ++ [q]).length ≤ 1000
    split_ifs with h
    · rw [List.length_drop]; omega
    · omega
  refine ⟨hstep, ?_, ?_⟩
  · intro log qs h
    induction qs generalizing log with
    | nil => simpa using h
    | cons q rest ih => simpa [List.foldl] using ih _ (hstep log q)
  · intro log q h
    constructor
    · show (if (log ++ [q]).length > 1000 then
          (log ++ [q]).drop ((log ++ [q]).length - 500) else log ++ [q]).length = 500
      rw [if_pos h, List.length_drop]
      omega
    · show (if (log ++ [q]).length > 1000 then
          (log ++ [q]).drop ((log ++ [q]).length - 500) else log ++ [q]) <:+ log ++ [q]
      rw [if_pos h]
      exact List.drop_suffix _ _

/-- C2, amended. The DriftSeries emits exactly one value per
consecutive pair of successful samples — the pair with a zero predecessor
amount is *not* skipped: it contributes the conventional `0.0`
(`calculate_drift` line 20–21), while every other pair contributes
`(outputAmount_i − outputAmount_{i−1}) / outputAmount_{i−1} × 100`. -/
theorem C2_drift_series (quotes : List QuoteData) :
    (analyzeDrifts quotes).length = (successful quotes).length - 1 ∧
      ∀ i : ℕ, i + 1 < (successful quotes).length →
        (analyzeDrifts quotes).getD i 0 =
          if ((successful quotes).getD i dummyQuote).output_amount = 0 then 0
          else ((((successful quotes).getD (i + 1) dummyQuote).output_amount : ℚ) -
                (((successful quotes).getD i dummyQuote).output_amount : ℚ)) /
              (((successful quotes).getD i dummyQuote).output_amount : ℚ) * 100 := by
  refine ⟨driftSeriesOf_length _, ?_⟩
  intro i hi
  have h1 : i < (successful quotes).length := by omega
  have hi' : i < (analyzeDrifts quotes).length := by
    show i < (driftSeriesOf (successful quotes)).length
    rw [driftSeriesOf_length]; omega
  rw [List.getD_eq_getElem _ _ hi', List.getD_eq_getElem _ _ h1,
    List.getD_eq_getElem _ _ hi]
  show (driftSeriesOf (successful quotes)).get ⟨i, hi'⟩ = _
  simp only [driftSeriesOf, List.get_eq_getElem, List.getElem_zipWith, List.getElem_tail]
  rfl

/-- Witness for C2 on two successful samples with amounts 4 and 6: the
single drift value is the formula `(6 − 4) / 4 × 100`. -/
theorem C2_drift_series_witness :
    0 + 1 < (successful driftWitnessQuotes).length ∧
      (analyzeDrifts driftWitnessQuotes).getD 0 0 =
        if ((successful driftWitnessQuotes).getD 0 dummyQuote).output_amount = 0 then 0
        else ((((successful driftWitnessQuotes).getD (0 + 1) dummyQuote).output_amount : ℚ) -
              (((successful driftWitnessQuotes).getD 0 dummyQuote).output_amount : ℚ)) /
            (((successful driftWitnessQuotes).getD 0 dummyQuote).output_amount : ℚ) * 100 :=
  ⟨by decide, (C2_drift_series driftWitnessQuotes).2 0 (by decide)⟩

/-- C2 counterexample. Two successful samples whose first amount is
`0`: the claim says the pair is skipped and nothing is emitted, but the
code emits the conventional `0.0` — the DriftSeries is `[0]`, not
`[]`. -/
theorem C2_drift_series_counterexample :
    ((successful driftCexQuotes).getD 0 dummyQuote).output_amount = 0 ∧
      analyzeDrifts driftCexQuotes = [0] ∧ analyzeDrifts driftCexQuotes ≠ [] :=
  ⟨by decide, by decide, by decide⟩

/-- C4. A consecutive pair is counted as a front-running Opportunity
iff `previous.latency − current.latency > 0.05` *and* the absolute drift
exceeds `0.01` (the default thresholds); on the pair with latencies
0.30 s / 0.10 s and amounts 1 000 000 / 990 000, exactly one Opportunity
is produced, carrying timing advantage `0.20` (= 1/5) and price drift
`−1.0`. -/
theorem C4_opportunity :
    (∀ p c : QuoteData,
        analyze_frontrun_opportunities [p, c] =
          if p.latency - c.latency > latency_advantage_threshold ∧
              |calculate_drift p.output_amount c.output_amount| > drift_threshold
          then 1 else 0) ∧
      front_running_events [frontrunPrev, frontrunCur] = [(1 / 5, -1)] ∧
      analyze_frontrun_opportunities [frontrunPrev, frontrunCur] = 1 := by
  have hgen : ∀ p c : QuoteData,
      analyze_frontrun_opportunities [p, c] = if frontrunCond p c then 1 else 0 := by
    intro p c
    by_cases h : frontrunCond p c <;>
      simp [analyze_frontrun_opportunities, List.zip, List.filter_cons, h]
  have hd : calculate_drift (1000000 : ℤ) 990000 = -1 := by norm_num [calculate_drift]
  have hcond : frontrunCond frontrunPrev frontrunCur := by
    constructor
    · norm_num [frontrunPrev, frontrunCur, sampleQuote, latency_advantage_threshold]
    · simp only [frontrunPrev, frontrunCur, sampleQuote, hd]
      norm_num [drift_threshold]
  refine ⟨fun p c => hgen p c, ?_, ?_⟩
  · simp only [frontrunPrev, frontrunCur, sampleQuote] at hcond ⊢
    norm_num [front_running_events, List.zip, List.filterMap_cons, hcond, hd]
  · rw [hgen frontrunPrev frontrunCur, if_pos hcond]

/-- C1, amended. The latency/price correlation returns `0.0` when
the input has fewer than 3 samples (i.e. fewer than 2 consecutive
pairs — the code's guard is on the sample count, not the pair count),
and `0.0` when the statistical correlation is undefined because either
series has zero variance; the computation is a total function (never an
error). -/
theorem C1_correlation (quotes : List QuoteData) :
    (quotes.length < 3 → calculate_latency_price_correlation quotes = 0) ∧
      (npVar (pairLatencies quotes) = 0 ∨ npVar (pairAbsDrifts quotes) = 0 →
        calculate_latency_price_correlation quotes = 0) := by
  constructor
  · intro h
    simp [calculate_latency_price_correlation, h]
  · intro hvar
    unfold calculate_latency_price_correlation
    split_ifs with h1 h2
    · rfl
    · rfl
    · rw [corrcoef, if_pos hvar]

/-- Witness for C1: the empty input (0 samples, fewer than 3) yields
`0.0`, and an input of three samples with identical latencies (zero
latency variance, so the correlation is undefined) also yields `0.0`. -/
theorem C1_correlation_witness :
    (([] : List QuoteData).length < 3 ∧ calculate_latency_price_correlation [] = 0) ∧
      npVar (pairLatencies corrFlatQuotes) = 0 ∧
      calculate_latency_price_correlation corrFlatQuotes = 0 := by
  have hflat : npVar (pairLatencies corrFlatQuotes) = 0 := by
    norm_num [pairLatencies, corrFlatQuotes, sampleQuote, List.zip, npVar, npMean]
  exact ⟨⟨by norm_num, (C1_correlation []).1 (by norm_num)⟩,
    hflat, (C1_correlation corrFlatQuotes).2 (Or.inl hflat)⟩

/-- C1 counterexample. Three successful samples — only *2*
consecutive pairs, fewer than the 3 the claim requires for the zero
result — on which the computation returns `−1`, not `0.0`: the code's
guard is `len(quotes) < 3`, i.e. fewer than 2 pairs, not fewer than 3. -/
theorem C1_correlation_counterexample :
    corrCexQuotes.length = 3 ∧
      (List.zip corrCexQuotes corrCexQuotes.tail).length = 2 ∧
      calculate_latency_price_correlation corrCexQuotes = -1 := by
  refine ⟨by decide, by decide, ?_⟩
  have habs : |(25 : ℚ) / 2| = 25 / 2 := abs_of_pos (by norm_num)
  norm_num [calculate_latency_price_correlation, corrCexQuotes, corrcoef, npCov,
    pairLatencies, pairAbsDrifts, npMean, npVar, calculate_drift, sampleQuote, List.zip, habs]

/-- C3. `analyze_quotes` returns `none` (absent, not an error)
exactly when the input contains fewer than 2 successful samples; with at
least 2 successful samples it always produces an analysis record. -/
theorem C3_analyze_none_iff (quotes : List QuoteData) :
    analyze_quotes quotes = none ↔ (successful quotes).length < 2 := by
  unfold analyze_quotes
  split_ifs with h1 h2 h3
  · subst h1
    simp [successful]
  · exact iff_of_true rfl h2
  · exfalso
    have hl := driftSeriesOf_length (successful quotes)
    rw [h3] at hl
    simp only [List.length_nil] at hl
    omega
  · exact iff_of_false (by simp) h2

/-- C5. For every input whose successful subsequence is non-empty,
the first exported CSV row has `drift_pct = 0.0` and
`is_mev_opportunity = false`; every row's `price_usdc` equals its
`output_amount / 1 000 000` exactly; and every later row's
`is_mev_opportunity` is `|drift| > 0.01` for the drift computed from its
predecessor's amount (the exported `drift_pct` column being that drift
rounded to 4 decimals). -/
theorem C5_export (quotes : List QuoteData) :
    (successful quotes ≠ [] →
        ((export_to_csv quotes).headD dummyRow).drift_pct = 0 ∧
          ((export_to_csv quotes).headD dummyRow).is_mev_opportunity = false) ∧
      (∀ i < (export_to_csv quotes).length,
        ((export_to_csv quotes).getD i dummyRow).price_usdc =
          (((export_to_csv quotes).getD i dummyRow).output_amount : ℚ) / 1000000) ∧
      (∀ i : ℕ, i + 1 < (successful quotes).length →
        ((export_to_csv quotes).getD (i + 1) dummyRow).is_mev_opportunity =
          decide (|calculate_drift (((successful quotes).getD i dummyQuote).output_amount)
              (((successful quotes).getD (i + 1) dummyQuote).output_amount)| > 1 / 100) ∧
          ((export_to_csv quotes).getD (i + 1) dummyRow).drift_pct =
            pyRound (calculate_drift (((successful quotes).getD i dummyQuote).output_amount)
              (((successful quotes).getD (i + 1) dummyQuote).output_amount)) 4) := by
  refine ⟨?_, ?_, ?_⟩
  · intro hne
    cases hs : successful quotes with
    | nil => exact absurd hs hne
    | cons q rest =>
      have hexp : export_to_csv quotes = csvRow none q :: exportRowsAux (some q.output_amount) rest := by
        rw [export_to_csv, hs]; rfl
      rw [hexp]
      constructor
      · show (csvRow none q).drift_pct = 0
        simp [csvRow, pyRound]
      · show (csvRow none q).is_mev_opportunity = false
        simp only [csvRow, decide_eq_false_iff_not, not_lt]
        norm_num
  · exact exportRowsAux_price (successful quotes) none
  · intro i hi
    rw [export_to_csv, exportRowsAux_getD_succ (successful quotes) none i hi]
    constructor
    · show decide (|(if ((successful quotes).getD i dummyQuote).output_amount = 0 then (0 : ℚ)
          else calculate_drift (((successful quotes).getD i dummyQuote).output_amount)
            (((successful quotes).getD (i + 1) dummyQuote).output_amount))| > (1 : ℚ) / 100) = _
      rw [csvRow_driftVal]
    · show pyRound (if ((successful quotes).getD i dummyQuote).output_amount = 0 then (0 : ℚ)
          else calculate_drift (((successful quotes).getD i dummyQuote).output_amount)
            (((successful quotes).getD (i + 1) dummyQuote).output_amount)) 4 = _
      rw [csvRow_driftVal]

/-- Witness for C5 on two successful samples (amounts 1 000 000 and
990 000): the first row has zero drift and no MEV flag, rows carry the
exact price, and the second row's MEV flag is the `|drift| > 0.01`
test. -/
theorem C5_export_witness :
    successful exportWitnessQuotes ≠ [] ∧
      ((export_to_csv exportWitnessQuotes).headD dummyRow).drift_pct = 0 ∧
      ((export_to_csv exportWitnessQuotes).headD dummyRow).is_mev_opportunity = false ∧
      0 < (export_to_csv exportWitnessQuotes).length ∧
      ((export_to_csv exportWitnessQuotes).getD 0 dummyRow).price_usdc =
        (((export_to_csv exportWitnessQuotes).getD 0 dummyRow).output_amount : ℚ) / 1000000 ∧
      0 + 1 < (successful exportWitnessQuotes).length ∧
      ((export_to_csv exportWitnessQuotes).getD (0 + 1) dummyRow).is_mev_opportunity =
        decide (|calculate_drift
            (((successful exportWitnessQuotes).getD 0 dummyQuote).output_amount)
            (((successful exportWitnessQuotes).getD (0 + 1) dummyQuote).output_amount)| >
          1 / 100) :=
  ⟨by decide, ((C5_export exportWitnessQuotes).1 (by decide)).1,
    ((C5_export exportWitnessQuotes).1 (by decide)).2, by decide,
    (C5_export exportWitnessQuotes).2.1 0 (by decide), by decide,
    ((C5_export exportWitnessQuotes).2.2 0 (by decide)).1⟩

/-- C8. `detect_price_anomalies` returns the empty list for every
input with fewer than 10 successful samples, and on the synthetic
amounts `[100]*20 ++ [1000]` with threshold 2.0 returns exactly one
anomaly record — the `1000` sample — whose z-score exceeds 2.0 (its
squared z-score is 20 > 2² = 4, i.e. z = √20 ≈ 4.47), computed against
the population mean and variance of all successful amounts. -/
theorem C8_detect_anomalies :
    (∀ (quotes : List QuoteData) (τ : ℚ), (successful quotes).length < 10 →
        detect_price_anomalies quotes τ = some []) ∧
      detect_price_anomalies anomalyInput 2 =
        some [{ timestamp := 0, output_amount := 1000, zScoreSq := 20,
                deviation_pct := 600, latency_ms := 0 }] ∧
      (20 : ℚ) > 2 ^ 2 := by
  refine ⟨?_, ?_, by norm_num⟩
  · intro quotes τ h
    unfold detect_price_anomalies
    rw [if_pos h]
  · norm_num [detect_price_anomalies, anomalyInput, successful, List.replicate, sampleQuote,
      npMean, npVar, anomalyFlag, List.filter_cons]

/-- Witness for C8 at the empty input: 0 successful samples is fewer
than 10, and the result is the empty anomaly list. -/
theorem C8_detect_anomalies_witness :
    (successful ([] : List QuoteData)).length < 10 ∧
      detect_price_anomalies [] 2 = some [] :=
  ⟨by decide, C8_detect_anomalies.1 [] 2 (by decide)⟩

/-- C10. The z-score division of `detect_price_anomalies` is
unguarded: for every input with at least 10 successful samples all
carrying the same output amount, the population variance of the
successful amounts — the square of the standard deviation the code
divides by — is `0`, and the computation reaches that zero-denominator
branch (modelled `none`).  (Contrast `utils.detect_outliers`, which
checks `std_dev == 0` first.) -/
theorem C10_unguarded_division (quotes : List QuoteData) (a : ℤ) (τ : ℚ)
    (h10 : 10 ≤ (successful quotes).length)
    (hall : ∀ q ∈ successful quotes, q.output_amount = a) :
    npVar ((successful quotes).map fun q => (q.output_amount : ℚ)) = 0 ∧
      detect_price_anomalies quotes τ = none := by
  have hne : ((successful quotes).map fun q => (q.output_amount : ℚ)) ≠ [] := by
    simp only [ne_eq, List.map_eq_nil_iff]
    intro h
    rw [h] at h10
    simp at h10
  have hvar : npVar ((successful quotes).map fun q => (q.output_amount : ℚ)) = 0 := by
    apply npVar_of_all_eq _ ((a : ℤ) : ℚ) hne
    intro x hx
    rcases List.mem_map.mp hx with ⟨q, hq, rfl⟩
    rw [hall q hq]
  refine ⟨hvar, ?_⟩
  unfold detect_price_anomalies
  rw [if_neg (by omega), if_pos hvar]

/-- Witness for C10: ten successful samples of identical amount 100
yield a zero divisor and hit the unguarded division. -/
theorem C10_unguarded_division_witness :
    10 ≤ (successful flatAmountInput).length ∧
      (∀ q ∈ successful flatAmountInput, q.output_amount = 100) ∧
      detect_price_anomalies flatAmountInput 2 = none :=
  ⟨by decide, by decide,
    (C10_unguarded_division flatAmountInput 100 2 (by decide) (by decide)).2⟩

/-- Witness for C6: the empty log stays bounded under an append sequence,
and appending to a full 1000-entry log trims it to exactly 500. -/
theorem C6_retention_witness :
    ([] : List QuoteData).length ≤ 1000 ∧
      (List.foldl append_quote [] [sampleQuote 0 1]).length ≤ 1000 ∧
      1000 < (List.replicate 1000 dummyQuote ++ [dummyQuote]).length ∧
      (append_quote (List.replicate 1000 dummyQuote) dummyQuote).length = 500 :=
  ⟨by simp, C6_retention.2.1 [] [sampleQuote 0 1] (by simp),
    by norm_num [List.length_append, List.length_replicate],
    (C6_retention.2.2 (List.replicate 1000 dummyQuote) dummyQuote
      (by norm_num [List.length_append, List.length_replicate])).1⟩

